import Mathlib

/-
Verification of the pod-discovery fan-out coordinator and its result
selector (`discover_pod` and `get_best_discovered_result` of
`maasserver.clusterrpc.pods`), against the natural-language specification.

The implementation module itself is not part of the provided sources; only
its test suite (`src/maasserver/clusterrpc/tests/test_pods.py`) is.  The
definitions below are therefore modelled from the specification, with the
behaviour on concrete inputs pinned down by the repository's tests wherever
the two disagree.  Asynchronous completion is abstracted into a per-client
`CallOutcome`: each client's deferred either settles with a payload before
the shared deadline, settles with an error before the deadline, or is still
unsettled when the deadline fires (in which case the coordinator cancels it
and records a `CancelledError`).
-/

namespace Maas

/-- Modelled from the spec: the nested hints value of a discovered pod,
describing currently-available headroom (`DiscoveredPodHints` in
`provisioningserver.drivers.pod`). -/
structure DiscoveredPodHints where
  cores : Nat
  cpu_speed : Nat
  memory : Nat
  local_storage : Nat
deriving DecidableEq, Repr

/-- Modelled from the spec: the immutable value returned by a successful
discovery call (`DiscoveredPod` in `provisioningserver.drivers.pod`). -/
structure DiscoveredPod where
  architectures : List String
  cores : Nat
  cpu_speed : Nat
  memory : Nat
  local_storage : Nat
  hints : DiscoveredPodHints
deriving DecidableEq, Repr

/-- Modelled from the spec: the closed set of error values a per-controller
invocation can produce.  `UnknownPodType`, `NotImplementedError` and
`PodActionFail` are the three named categories of the selector's priority
order; `CancelledError` is the cancellation/timeout error; `Other excType msg`
stands for an arbitrary caller-defined exception type (the tests build fresh
exception types with `factory.make_exception_type()`; distinct `excType`
numbers model distinct such types). -/
inductive PodExc where
  | UnknownPodType (podType : String)
  | NotImplementedError
  | PodActionFail (msg : String)
  | CancelledError
  | Other (excType : Nat) (msg : String)
deriving DecidableEq, Repr

/-- Modelled from the spec: the payload a successful invocation settles
with — a mapping that holds the discovered resource under the `"pod"` key
(`client.return_value = succeed({"pod": pod})` in the tests).  `rest` stands
for any other keys of the returned mapping. -/
structure Payload where
  pod : DiscoveredPod
  rest : List (String × String)
deriving DecidableEq, Repr

/-- Modelled from the spec: how one controller's invocation behaves relative
to the shared deadline of one round. -/
inductive CallOutcome where
  | settlesWith (payload : Payload)
  | failsWith (e : PodExc)
  | unsettledAtDeadline
deriving Repr

/-- Modelled from the spec: one rack-controller client as returned by the
controller registry (`getAllClients`): an identity (`client.ident`) and an
invoke operation taking the pod kind and the opaque parameters bag. -/
structure Client where
  ident : String
  call : String → List (String × String) → CallOutcome

/-- Modelled from the spec: the aggregation loop of the fan-out coordinator.
Each settled invocation contributes exactly one entry: a success entry
holding the resource extracted from the payload's `"pod"` key, a failure
entry holding the original error value, or — for an invocation still
unsettled at the deadline — a failure entry holding a `CancelledError`. -/
def collectResults (outcomes : List (String × CallOutcome)) :
    List (String × DiscoveredPod) × List (String × PodExc) :=
  match outcomes with
  | [] => ([], [])
  | (ident, o) :: rest =>
    let acc := collectResults rest
    match o with
    | CallOutcome.settlesWith p => ((ident, p.pod) :: acc.1, acc.2)
    | CallOutcome.failsWith e => (acc.1, (ident, e) :: acc.2)
    | CallOutcome.unsettledAtDeadline =>
        (acc.1, (ident, PodExc.CancelledError) :: acc.2)

/-- Modelled from the spec: `discover_pod` — the fan-out coordinator.  It
invokes every client of the registry concurrently with the same kind and
parameters, bounds the round by the shared deadline, and returns the pair
`(successes, failures)`; per-controller failures are captured as data, never
propagated (the return type is a plain pair, not an exception monad).  The
`clients` argument stands for the list the controller registry
(`getAllClients`) yields for this round. -/
def discover_pod (clients : List Client) (pod_type : String)
    (parameters : List (String × String)) :
    List (String × DiscoveredPod) × List (String × PodExc) :=
  collectResults (clients.map (fun c => (c.ident, c.call pod_type parameters)))

/-- Category test: is this error an action-failed error? -/
def PodExc.isPodActionFail : PodExc → Bool
  | PodExc.PodActionFail _ => true
  | _ => false

/-- Category test: is this error a not-implemented error? -/
def PodExc.isNotImplemented : PodExc → Bool
  | PodExc.NotImplementedError => true
  | _ => false

/-- Category test: is this error a driver/type-not-found error? -/
def PodExc.isUnknownPodType : PodExc → Bool
  | PodExc.UnknownPodType _ => true
  | _ => false

/-- An error of one of the three named categories of the selector's priority
order (as opposed to the uncategorized bucket, which holds cancellation
errors and arbitrary caller-defined errors). -/
def PodExc.isCategorized (e : PodExc) : Bool :=
  e.isPodActionFail || e.isNotImplemented || e.isUnknownPodType

/-- First error of the failures map satisfying a category test. -/
def firstOfCategory (failures : List (String × PodExc))
    (cat : PodExc → Bool) : Option PodExc :=
  (failures.find? (fun kv => cat kv.2)).map Prod.snd

/-- Modelled from the spec: `get_best_discovered_result` — the result
selector.  Returning a value is modelled as `Except.ok (some pod)`, the
no-result signal as `Except.ok none`, and raising an error as
`Except.error e`.  The priority order over the three named error categories
follows the repository's tests (`test_raises_PodActionFail_over_NotImplemended`,
`test_raises_NotImplemended_over_UnknownPodType`,
`test_raises_UnknownPodType_over_unknown`): `PodActionFail` first, then
`NotImplementedError`, then `UnknownPodType`, then any other error — note
this is the reverse of the order the specification text states. -/
def get_best_discovered_result
    (discovered : List (String × DiscoveredPod) × List (String × PodExc)) :
    Except PodExc (Option DiscoveredPod) :=
  match discovered.1 with
  | (_, pod) :: _ => Except.ok (some pod)
  | [] =>
    match discovered.2 with
    | [] => Except.ok none
    | (_, e0) :: _ =>
      match firstOfCategory discovered.2 PodExc.isPodActionFail with
      | some e => Except.error e
      | none =>
        match firstOfCategory discovered.2 PodExc.isNotImplemented with
        | some e => Except.error e
        | none =>
          match firstOfCategory discovered.2 PodExc.isUnknownPodType with
          | some e => Except.error e
          | none => Except.error e0

/-- A sample pod used by concrete witnesses. -/
def samplePod : DiscoveredPod :=
  { architectures := ["amd64/generic"]
    cores := 4
    cpu_speed := 2000
    memory := 2048
    local_storage := 750
    hints := { cores := 2, cpu_speed := 2000, memory := 1024, local_storage := 500 } }

example :
    get_best_discovered_result
      ([], [("rack-a", PodExc.Other 3 "boom"),
            ("rack-b", PodExc.UnknownPodType "unknown"),
            ("rack-c", PodExc.NotImplementedError)])
      = Except.error PodExc.NotImplementedError := rfl

example :
    get_best_discovered_result
      ([], [("rack-a", PodExc.Other 3 "boom"),
            ("rack-b", PodExc.UnknownPodType "unknown"),
            ("rack-c", PodExc.NotImplementedError),
            ("rack-d", PodExc.PodActionFail "bad")])
      = Except.error (PodExc.PodActionFail "bad") := rfl

example :
    get_best_discovered_result
      ([], [("rack-a", PodExc.Other 3 "boom"),
            ("rack-b", PodExc.UnknownPodType "unknown")])
      = Except.error (PodExc.UnknownPodType "unknown") := rfl

example : get_best_discovered_result ([], []) = Except.ok none := rfl

/-- A found category representative is a value of the failures map and
satisfies the category test. -/
theorem firstOfCategory_eq_some {fs : List (String × PodExc)} {cat : PodExc → Bool}
    {e : PodExc} (h : firstOfCategory fs cat = some e) :
    e ∈ fs.map Prod.snd ∧ cat e = true := by
  unfold firstOfCategory at h
  rcases Option.map_eq_some'.mp h with ⟨kv, hfind, rfl⟩
  exact ⟨List.mem_map_of_mem Prod.snd (List.mem_of_find?_eq_some hfind),
    by simpa using List.find?_some hfind⟩

/-- When no category representative is found, no value of the failures map
satisfies the category test. -/
theorem firstOfCategory_eq_none {fs : List (String × PodExc)} {cat : PodExc → Bool}
    (h : firstOfCategory fs cat = none) :
    ∀ kv ∈ fs, cat kv.2 = false := by
  unfold firstOfCategory at h
  rw [Option.map_eq_none'] at h
  intro kv hkv
  simpa using List.find?_eq_none.mp h kv hkv

/-- A failures-map entry of the category guarantees a representative is
found. -/
theorem firstOfCategory_isSome_of_mem {fs : List (String × PodExc)}
    {cat : PodExc → Bool} {kv : String × PodExc} (hm : kv ∈ fs)
    (hc : cat kv.2 = true) : ∃ e, firstOfCategory fs cat = some e := by
  cases hfind : firstOfCategory fs cat with
  | some e => exact ⟨e, rfl⟩
  | none => exact absurd hc (by simp [firstOfCategory_eq_none hfind kv hm])

/-- Every outcome contributes exactly one entry: the sizes of the two maps
add up to the number of outcomes. -/
theorem collectResults_length (os : List (String × CallOutcome)) :
    (collectResults os).1.length + (collectResults os).2.length = os.length := by
  induction os with
  | nil => rfl
  | cons hd tl ih =>
    obtain ⟨i, o⟩ := hd
    cases o <;> simp only [collectResults, List.length_cons] <;> omega

/-- Success entries of the aggregation loop are exactly the extracted pods
of the outcomes that settled with a payload. -/
theorem mem_collectResults_succ {os : List (String × CallOutcome)} {k : String}
    {pod : DiscoveredPod} :
    (k, pod) ∈ (collectResults os).1 ↔
      ∃ p, (k, CallOutcome.settlesWith p) ∈ os ∧ pod = p.pod := by
  induction os with
  | nil => simp [collectResults]
  | cons hd tl ih =>
    obtain ⟨i, o⟩ := hd
    cases o <;>
      simp only [collectResults, List.mem_cons, ih, Prod.mk.injEq] <;>
      aesop

/-- Failure entries of the aggregation loop are exactly the original errors
of the outcomes that settled with an error, plus a `CancelledError` for each
outcome still unsettled at the deadline. -/
theorem mem_collectResults_fail {os : List (String × CallOutcome)} {k : String}
    {e : PodExc} :
    (k, e) ∈ (collectResults os).2 ↔
      ((k, CallOutcome.failsWith e) ∈ os ∨
        (e = PodExc.CancelledError ∧ (k, CallOutcome.unsettledAtDeadline) ∈ os)) := by
  induction os with
  | nil => simp [collectResults]
  | cons hd tl ih =>
    obtain ⟨i, o⟩ := hd
    cases o <;>
      simp only [collectResults, List.mem_cons, ih, Prod.mk.injEq] <;>
      aesop

/-- Every key of either result map is the identity of one of the outcomes. -/
theorem collectResults_keys_subset (os : List (String × CallOutcome)) (k : String) :
    (k ∈ (collectResults os).1.map Prod.fst ∨ k ∈ (collectResults os).2.map Prod.fst) →
      k ∈ os.map Prod.fst := by
  intro h
  rcases h with h | h
  · rcases List.mem_map.mp h with ⟨⟨k', pod⟩, hmem, hk⟩
    cases hk
    rcases mem_collectResults_succ.mp hmem with ⟨p, hmem', _⟩
    exact List.mem_map.mpr ⟨_, hmem', rfl⟩
  · rcases List.mem_map.mp h with ⟨⟨k', e⟩, hmem, hk⟩
    cases hk
    rcases mem_collectResults_fail.mp hmem with hmem' | ⟨_, hmem'⟩
    · exact List.mem_map.mpr ⟨_, hmem', rfl⟩
    · exact List.mem_map.mpr ⟨_, hmem', rfl⟩

/-- With distinct identities, no identity carries both a success entry and a
failure entry. -/
theorem collectResults_keys_disjoint (os : List (String × CallOutcome))
    (hnodup : (os.map Prod.fst).Nodup) (k : String)
    (hs : k ∈ (collectResults os).1.map Prod.fst) :
    k ∉ (collectResults os).2.map Prod.fst := by
  intro hf
  rcases List.mem_map.mp hs with ⟨⟨k1, pod⟩, hmem1, hk1⟩
  cases hk1
  rcases List.mem_map.mp hf with ⟨⟨k2, e⟩, hmem2, hk2⟩
  cases hk2
  rcases mem_collectResults_succ.mp hmem1 with ⟨p, ho1, _⟩
  have inj := List.inj_on_of_nodup_map hnodup
  rcases mem_collectResults_fail.mp hmem2 with ho2 | ⟨_, ho2⟩ <;>
  · have := inj ho1 ho2 rfl
    simp_all

/-- Master description of the selector on an empty successes map: it raises
an error stored in the failures map, chosen by the priority `PodActionFail`
first, then `NotImplementedError`, then `UnknownPodType`, then any remaining
error. -/
theorem get_best_empty_succ_spec (fs : List (String × PodExc)) (hne : fs ≠ []) :
    ∃ e, get_best_discovered_result ([], fs) = Except.error e ∧
      e ∈ fs.map Prod.snd ∧
      ((∃ kv ∈ fs, kv.2.isPodActionFail = true) → e.isPodActionFail = true) ∧
      ((∀ kv ∈ fs, kv.2.isPodActionFail = false) →
        (∃ kv ∈ fs, kv.2.isNotImplemented = true) → e.isNotImplemented = true) ∧
      ((∀ kv ∈ fs, kv.2.isPodActionFail = false) →
        (∀ kv ∈ fs, kv.2.isNotImplemented = false) →
        (∃ kv ∈ fs, kv.2.isUnknownPodType = true) → e.isUnknownPodType = true) := by
  rcases List.exists_cons_of_ne_nil hne with ⟨⟨k0, e0⟩, tl, rfl⟩
  cases hpaf : firstOfCategory ((k0, e0) :: tl) PodExc.isPodActionFail with
  | some e =>
    obtain ⟨hmem, hcat⟩ := firstOfCategory_eq_some hpaf
    refine ⟨e, ?_, hmem, fun _ => hcat, ?_, ?_⟩
    · simp only [get_best_discovered_result, hpaf]
    · intro hall _
      exfalso
      rcases List.mem_map.mp hmem with ⟨kv, hkv, hsnd⟩
      have := hall kv hkv
      simp_all
    · intro hall _ _
      exfalso
      rcases List.mem_map.mp hmem with ⟨kv, hkv, hsnd⟩
      have := hall kv hkv
      simp_all
  | none =>
    have hnonePAF := firstOfCategory_eq_none hpaf
    cases hnie : firstOfCategory ((k0, e0) :: tl) PodExc.isNotImplemented with
    | some e =>
      obtain ⟨hmem, hcat⟩ := firstOfCategory_eq_some hnie
      refine ⟨e, ?_, hmem, ?_, fun _ _ => hcat, ?_⟩
      · simp only [get_best_discovered_result, hpaf, hnie]
      · rintro ⟨kv, hkv, hkvcat⟩
        have := hnonePAF kv hkv
        simp_all
      · intro _ hallNIE _
        exfalso
        rcases List.mem_map.mp hmem with ⟨kv, hkv, hsnd⟩
        have := hallNIE kv hkv
        simp_all
    | none =>
      have hnoneNIE := firstOfCategory_eq_none hnie
      cases hupt : firstOfCategory ((k0, e0) :: tl) PodExc.isUnknownPodType with
      | some e =>
        obtain ⟨hmem, hcat⟩ := firstOfCategory_eq_some hupt
        refine ⟨e, ?_, hmem, ?_, ?_, fun _ _ _ => hcat⟩
        · simp only [get_best_discovered_result, hpaf, hnie, hupt]
        · rintro ⟨kv, hkv, hkvcat⟩
          have := hnonePAF kv hkv
          simp_all
        · rintro _ ⟨kv, hkv, hkvcat⟩
          have := hnoneNIE kv hkv
          simp_all
      | none =>
        have hnoneUPT := firstOfCategory_eq_none hupt
        refine ⟨e0, ?_, by simp, ?_, ?_, ?_⟩
        · simp only [get_best_discovered_result, hpaf, hnie, hupt]
        · rintro ⟨kv, hkv, hkvcat⟩
          have := hnonePAF kv hkv
          simp_all
        · rintro _ ⟨kv, hkv, hkvcat⟩
          have := hnoneNIE kv hkv
          simp_all
        · rintro _ _ ⟨kv, hkv, hkvcat⟩
          have := hnoneUPT kv hkv
          simp_all

/-- Keys of the per-client outcome list are exactly the client identities. -/
theorem discover_pod_outcome_keys (clients : List Client) (pod_type : String)
    (parameters : List (String × String)) :
    ((clients.map (fun c => (c.ident, c.call pod_type parameters))).map Prod.fst)
      = clients.map Client.ident := by
  simp [List.map_map, Function.comp]

/-- A client that hangs past the deadline, for concrete witnesses. -/
def hangingClient : Client :=
  { ident := "rack-hang", call := fun _ _ => CallOutcome.unsettledAtDeadline }

/-- A client that settles with an error, for concrete witnesses. -/
def failingClient : Client :=
  { ident := "rack-fail",
    call := fun _ _ => CallOutcome.failsWith (PodExc.UnknownPodType "lxd") }

/-- The payload the succeeding sample client settles with. -/
def samplePayload : Payload :=
  { pod := samplePod, rest := [("status", "ok")] }

/-- A client that settles with a payload, for concrete witnesses. -/
def succeedingClient : Client :=
  { ident := "rack-ok", call := fun _ _ => CallOutcome.settlesWith samplePayload }

/-- A concrete failures map used by the C1 witness. -/
def witnessFailures1 : List (String × PodExc) :=
  [("rack-a", PodExc.Other 7 "boom"), ("rack-b", PodExc.NotImplementedError),
   ("rack-c", PodExc.UnknownPodType "unknown")]

/-- A concrete failures map used by the C6 witness. -/
def witnessFailures6 : List (String × PodExc) :=
  [("rack-a", PodExc.Other 3 "boom"), ("rack-b", PodExc.UnknownPodType "unknown")]

example :
    get_best_discovered_result ([("rack-a", samplePod)], [])
      = Except.ok (some samplePod) := rfl

/-- C1 (counterexample): with empty successes and a failures map holding
both an `UnknownPodType` error and a `NotImplementedError`, the selector
raises the `NotImplementedError`, not the `UnknownPodType` error the
claim's priority order requires. -/
theorem C1_counterexample :
    get_best_discovered_result
      ([], [("rack-a", PodExc.UnknownPodType "unknown"),
            ("rack-b", PodExc.NotImplementedError)])
      = Except.error PodExc.NotImplementedError ∧
    PodExc.NotImplementedError ≠ PodExc.UnknownPodType "unknown" :=
  ⟨rfl, by decide⟩

/-- C1 (amended): for every failures map with empty successes, the selector
raises an error stored in the failures map, chosen by the fixed priority
order action-failed (`PodActionFail`) first, then not-implemented
(`NotImplementedError`), then driver/type-not-found (`UnknownPodType`),
then any other error. -/
theorem C1_priority_order (fs : List (String × PodExc)) (hne : fs ≠ []) :
    ∃ e, get_best_discovered_result ([], fs) = Except.error e ∧
      e ∈ fs.map Prod.snd ∧
      ((∃ kv ∈ fs, kv.2.isPodActionFail = true) → e.isPodActionFail = true) ∧
      ((∀ kv ∈ fs, kv.2.isPodActionFail = false) →
        (∃ kv ∈ fs, kv.2.isNotImplemented = true) → e.isNotImplemented = true) ∧
      ((∀ kv ∈ fs, kv.2.isPodActionFail = false) →
        (∀ kv ∈ fs, kv.2.isNotImplemented = false) →
        (∃ kv ∈ fs, kv.2.isUnknownPodType = true) → e.isUnknownPodType = true) :=
  get_best_empty_succ_spec fs hne

/-- C1 witness: the amended priority order evaluated at a concrete failures
map holding an uncategorized error, a `NotImplementedError` and an
`UnknownPodType` error. -/
theorem C1_priority_order_witness :
    ∃ e, get_best_discovered_result ([], witnessFailures1) = Except.error e ∧
      e ∈ witnessFailures1.map Prod.snd ∧
      ((∃ kv ∈ witnessFailures1, kv.2.isPodActionFail = true) →
        e.isPodActionFail = true) ∧
      ((∀ kv ∈ witnessFailures1, kv.2.isPodActionFail = false) →
        (∃ kv ∈ witnessFailures1, kv.2.isNotImplemented = true) →
        e.isNotImplemented = true) ∧
      ((∀ kv ∈ witnessFailures1, kv.2.isPodActionFail = false) →
        (∀ kv ∈ witnessFailures1, kv.2.isNotImplemented = false) →
        (∃ kv ∈ witnessFailures1, kv.2.isUnknownPodType = true) →
        e.isUnknownPodType = true) :=
  C1_priority_order witnessFailures1 (by decide)

/-- C3: whenever the successes map is non-empty, the selector returns one of
its values and never raises, whatever the failures map holds. -/
theorem C3_success_wins (ss : List (String × DiscoveredPod))
    (fs : List (String × PodExc)) (hne : ss ≠ []) :
    ∃ pod, get_best_discovered_result (ss, fs) = Except.ok (some pod) ∧
      pod ∈ ss.map Prod.snd := by
  rcases List.exists_cons_of_ne_nil hne with ⟨⟨k0, pod0⟩, tl, rfl⟩
  exact ⟨pod0, rfl, by simp⟩

/-- C3 witness: a concrete round with one success and one failure returns
the success value. -/
theorem C3_success_wins_witness :
    ∃ pod, get_best_discovered_result
        ([("rack-a", samplePod)], [("rack-b", PodExc.CancelledError)])
      = Except.ok (some pod) ∧
      pod ∈ [("rack-a", samplePod)].map Prod.snd :=
  C3_success_wins [("rack-a", samplePod)] [("rack-b", PodExc.CancelledError)]
    (by simp)

/-- C6: with empty successes, the selector raises an error of the failures
map, and whenever a failure of one of the three named categories is present,
the raised error is of one of those categories — never from the
uncategorized bucket; when every failure is uncategorized, the raised error
is still one of the stored failures. -/
theorem C6_categorized_precedence (fs : List (String × PodExc)) (hne : fs ≠ []) :
    ∃ e, get_best_discovered_result ([], fs) = Except.error e ∧
      e ∈ fs.map Prod.snd ∧
      ((∃ kv ∈ fs, kv.2.isCategorized = true) → e.isCategorized = true) := by
  obtain ⟨e, heq, hmem, h1, h2, h3⟩ := get_best_empty_succ_spec fs hne
  refine ⟨e, heq, hmem, ?_⟩
  rintro ⟨kv, hkv, hkvcat⟩
  by_cases hp : ∃ kv ∈ fs, kv.2.isPodActionFail = true
  · simp [PodExc.isCategorized, h1 hp]
  · push_neg at hp
    simp only [Bool.not_eq_true] at hp
    by_cases hn : ∃ kv ∈ fs, kv.2.isNotImplemented = true
    · simp [PodExc.isCategorized, h2 hp hn]
    · push_neg at hn
      simp only [Bool.not_eq_true] at hn
      have hupt : ∃ kv ∈ fs, kv.2.isUnknownPodType = true := by
        refine ⟨kv, hkv, ?_⟩
        have hP := hp kv hkv
        have hN := hn kv hkv
        simpa [PodExc.isCategorized, hP, hN] using hkvcat
      simp [PodExc.isCategorized, h3 hp hn hupt]

/-- C6 witness: a concrete failures map holding an uncategorized error and
an `UnknownPodType` error. -/
theorem C6_categorized_precedence_witness :
    ∃ e, get_best_discovered_result ([], witnessFailures6) = Except.error e ∧
      e ∈ witnessFailures6.map Prod.snd ∧
      ((∃ kv ∈ witnessFailures6, kv.2.isCategorized = true) →
        e.isCategorized = true) :=
  C6_categorized_precedence witnessFailures6 (by decide)

/-- C7: on the pair of two empty maps the selector returns the no-result
signal and raises no error. -/
theorem C7_empty_both : get_best_discovered_result ([], []) = Except.ok none :=
  rfl

/-- C10: with empty successes, the error the selector raises is the very
error value stored in the failures map, keyed by some controller — not a
copy, wrapper or newly constructed error. -/
theorem C10_raises_stored_error (fs : List (String × PodExc)) (hne : fs ≠ []) :
    ∃ k e, (k, e) ∈ fs ∧
      get_best_discovered_result ([], fs) = Except.error e := by
  obtain ⟨e, heq, hmem, -, -, -⟩ := get_best_empty_succ_spec fs hne
  rcases List.mem_map.mp hmem with ⟨kv, hkv, hsnd⟩
  refine ⟨kv.1, e, ?_, heq⟩
  rw [← hsnd]
  exact hkv

/-- C10 witness: an error of an arbitrary caller-defined type never seen
before by the selector is raised as-is. -/
theorem C10_raises_stored_error_witness :
    (∃ k e, (k, e) ∈ [("rack-x", PodExc.Other 42 "custom")] ∧
      get_best_discovered_result ([], [("rack-x", PodExc.Other 42 "custom")])
        = Except.error e) ∧
    get_best_discovered_result ([], [("rack-x", PodExc.Other 42 "custom")])
      = Except.error (PodExc.Other 42 "custom") :=
  ⟨C10_raises_stored_error [("rack-x", PodExc.Other 42 "custom")] (by decide), rfl⟩

/-- C2: a controller whose invocation is still unsettled when the shared
timeout fires contributes a failure entry keyed by its identity holding a
`CancelledError`, contributes no success entry, and is never silently
omitted from the result. -/
theorem C2_timeout_entry (clients : List Client) (pod_type : String)
    (parameters : List (String × String)) (c : Client) (hc : c ∈ clients)
    (hnodup : (clients.map Client.ident).Nodup)
    (hhang : c.call pod_type parameters = CallOutcome.unsettledAtDeadline) :
    (c.ident, PodExc.CancelledError) ∈ (discover_pod clients pod_type parameters).2 ∧
      c.ident ∉ (discover_pod clients pod_type parameters).1.map Prod.fst := by
  have hos : (c.ident, CallOutcome.unsettledAtDeadline)
      ∈ clients.map (fun c => (c.ident, c.call pod_type parameters)) :=
    List.mem_map.mpr ⟨c, hc, by rw [hhang]⟩
  have hnodup' :
      ((clients.map (fun c => (c.ident, c.call pod_type parameters))).map Prod.fst).Nodup := by
    rw [discover_pod_outcome_keys]
    exact hnodup
  constructor
  · exact mem_collectResults_fail.mpr (Or.inr ⟨rfl, hos⟩)
  · intro hsk
    rcases List.mem_map.mp hsk with ⟨kv, hmem1, hk1⟩
    rcases mem_collectResults_succ.mp hmem1 with ⟨p, hmem2, -⟩
    have heq := List.inj_on_of_nodup_map hnodup' hmem2 hos (by simpa using hk1)
    simp at heq

/-- C2 witness: a concrete round with one hanging client and one succeeding
client records the hanging client under failures only. -/
theorem C2_timeout_entry_witness :
    (hangingClient.ident, PodExc.CancelledError)
        ∈ (discover_pod [hangingClient, succeedingClient] "virsh" []).2 ∧
      hangingClient.ident
        ∉ (discover_pod [hangingClient, succeedingClient] "virsh" []).1.map Prod.fst :=
  C2_timeout_entry [hangingClient, succeedingClient] "virsh" [] hangingClient
    (List.mem_cons_self _ _) (by decide) rfl

/-- C4: per-controller errors are captured as data (the coordinator's result
type is a plain pair, so no error propagates): a controller that settles
with an error appears in failures keyed by its identity with the original
error value, and a controller that settles with a payload appears in
successes. -/
theorem C4_failures_as_data (clients : List Client) (pod_type : String)
    (parameters : List (String × String)) (c : Client) (hc : c ∈ clients) :
    (∀ e, c.call pod_type parameters = CallOutcome.failsWith e →
      (c.ident, e) ∈ (discover_pod clients pod_type parameters).2) ∧
    (∀ p, c.call pod_type parameters = CallOutcome.settlesWith p →
      (c.ident, p.pod) ∈ (discover_pod clients pod_type parameters).1) := by
  constructor
  · intro e hcall
    exact mem_collectResults_fail.mpr
      (Or.inl (List.mem_map.mpr ⟨c, hc, by rw [hcall]⟩))
  · intro p hcall
    exact mem_collectResults_succ.mpr
      ⟨p, List.mem_map.mpr ⟨c, hc, by rw [hcall]⟩, rfl⟩

/-- C4 witness: a concrete failing client's original error value appears in
the failures map of a round that also holds a succeeding client. -/
theorem C4_failures_as_data_witness :
    (failingClient.ident, PodExc.UnknownPodType "lxd")
      ∈ (discover_pod [failingClient, succeedingClient] "virsh" []).2 :=
  (C4_failures_as_data [failingClient, succeedingClient] "virsh" [] failingClient
    (List.mem_cons_self _ _)).1 _ rfl

/-- C5: every invoked controller ends up with exactly one entry across the
two maps — the sizes add up to the number of invoked controllers, the key
sets are disjoint, and their union is contained in the invoked
controllers' identities. -/
theorem C5_partition (clients : List Client) (pod_type : String)
    (parameters : List (String × String))
    (hnodup : (clients.map Client.ident).Nodup) :
    (discover_pod clients pod_type parameters).1.length
        + (discover_pod clients pod_type parameters).2.length = clients.length ∧
    (∀ k, k ∈ (discover_pod clients pod_type parameters).1.map Prod.fst →
      k ∉ (discover_pod clients pod_type parameters).2.map Prod.fst) ∧
    (∀ k, (k ∈ (discover_pod clients pod_type parameters).1.map Prod.fst ∨
           k ∈ (discover_pod clients pod_type parameters).2.map Prod.fst) →
      k ∈ clients.map Client.ident) := by
  have hkeys := discover_pod_outcome_keys clients pod_type parameters
  refine ⟨?_, ?_, ?_⟩
  · show (collectResults _).1.length + (collectResults _).2.length = clients.length
    rw [collectResults_length, List.length_map]
  · intro k hk
    exact collectResults_keys_disjoint _ (by rw [hkeys]; exact hnodup) k hk
  · intro k hk
    have hsub := collectResults_keys_subset _ k hk
    rwa [hkeys] at hsub

/-- C5 witness: the partition property at a concrete round of three clients
with one success, one error and one hang. -/
theorem C5_partition_witness :
    (discover_pod [hangingClient, failingClient, succeedingClient] "virsh" []).1.length
        + (discover_pod [hangingClient, failingClient, succeedingClient] "virsh" []).2.length
        = ([hangingClient, failingClient, succeedingClient] : List Client).length ∧
    (∀ k,
      k ∈ (discover_pod [hangingClient, failingClient, succeedingClient] "virsh" []).1.map Prod.fst →
      k ∉ (discover_pod [hangingClient, failingClient, succeedingClient] "virsh" []).2.map Prod.fst) ∧
    (∀ k,
      (k ∈ (discover_pod [hangingClient, failingClient, succeedingClient] "virsh" []).1.map Prod.fst ∨
       k ∈ (discover_pod [hangingClient, failingClient, succeedingClient] "virsh" []).2.map Prod.fst) →
      k ∈ ([hangingClient, failingClient, succeedingClient] : List Client).map Client.ident) :=
  C5_partition [hangingClient, failingClient, succeedingClient] "virsh" [] (by decide)

/-- C8: when the registry yields zero controller clients, the coordinator
returns the pair of two empty maps for every kind and parameters input, and
signals no error. -/
theorem C8_empty_registry (pod_type : String)
    (parameters : List (String × String)) :
    discover_pod [] pod_type parameters = ([], []) :=
  rfl

/-- C9: a controller that settles with a payload before the deadline is
recorded in the successes map under its identity with the resource extracted
from the payload's pod key — and with nothing else: every success entry
under that identity is that extracted resource, never the raw payload. -/
theorem C9_success_is_extracted_pod (clients : List Client) (pod_type : String)
    (parameters : List (String × String)) (c : Client) (p : Payload)
    (hc : c ∈ clients) (hnodup : (clients.map Client.ident).Nodup)
    (hcall : c.call pod_type parameters = CallOutcome.settlesWith p) :
    (c.ident, p.pod) ∈ (discover_pod clients pod_type parameters).1 ∧
    ∀ pod, (c.ident, pod) ∈ (discover_pod clients pod_type parameters).1 →
      pod = p.pod := by
  have hos : (c.ident, CallOutcome.settlesWith p)
      ∈ clients.map (fun c => (c.ident, c.call pod_type parameters)) :=
    List.mem_map.mpr ⟨c, hc, by rw [hcall]⟩
  have hnodup' :
      ((clients.map (fun c => (c.ident, c.call pod_type parameters))).map Prod.fst).Nodup := by
    rw [discover_pod_outcome_keys]
    exact hnodup
  constructor
  · exact mem_collectResults_succ.mpr ⟨p, hos, rfl⟩
  · intro pod hpod
    rcases mem_collectResults_succ.mp hpod with ⟨q, hq, hpq⟩
    have heq := List.inj_on_of_nodup_map hnodup' hq hos rfl
    simp only [Prod.mk.injEq] at heq
    obtain ⟨-, h2⟩ := heq
    injection h2 with h3
    rw [hpq, h3]

/-- C9 witness: the concrete succeeding client's entry is the pod extracted
from its payload. -/
theorem C9_success_is_extracted_pod_witness :
    (succeedingClient.ident, samplePod)
      ∈ (discover_pod [failingClient, succeedingClient] "virsh" []).1 :=
  (C9_success_is_extracted_pod [failingClient, succeedingClient] "virsh" []
    succeedingClient samplePayload
    (List.mem_cons_of_mem _ (List.mem_cons_self _ _)) (by decide) rfl).1

end Maas
